import Mathlib

/-!
Verification development for the gbfs_exporter repository.

The repository is a Go program (three variants of one `main` package):
`src/main.go` (probe mode with a `target` query parameter and process-global
gauge vectors), `src/unnamed/part_001` (probe mode with per-request gauges),
and `src/unnamed/part_002` (poll mode with a background loop).
`src/unnamed/part_000` is an earlier fixed-URL probe prototype.

This file shallowly embeds the data model, the JSON decoding
(`StationStatus.UnmarshalJSON`, `GetStationStatuses`), the gauge state, the
probe handlers and one iteration of the poll loop, and proves or refutes
the frozen claims about them.

Machine integers (`int64`) are modelled as `Int`; the program never
overflows them on the values concerned.  Gauge values (`float64` in Go)
are modelled as `Int`: every value the program stores in a gauge is
`float64(x)` for an `int64` x or `BoolToFloat64` of a `Bool`, and the
claims only concern small integer values, on which the conversion is exact.
-/

namespace Gbfs

/-- A parsed JSON value.  The feeds consumed by the program carry only
integer numbers, so numbers are modelled as `Int`. -/
inductive JsonVal : Type where
  | null : JsonVal
  | bool : Bool → JsonVal
  | num : Int → JsonVal
  | str : String → JsonVal
  | arr : List JsonVal → JsonVal
  | obj : List (String × JsonVal) → JsonVal
  deriving Repr

/-- Key lookup in a JSON object.  Go's `encoding/json` processes the keys
in order, a later duplicate overwriting an earlier one, so the lookup is
last-match-wins. -/
def jLookup (fields : List (String × JsonVal)) (k : String) : Option JsonVal :=
  fields.foldl (fun acc p => if p.1 = k then some p.2 else acc) none

/-- Go `json.Unmarshal` of an object field into an `int64` struct field:
a missing key or JSON `null` leaves the zero value `0`; a JSON number is
taken as is; any other JSON type is a type error. -/
def getIntD (fields : List (String × JsonVal)) (k : String) : Except String Int :=
  match jLookup fields k with
  | none => Except.ok 0
  | some JsonVal.null => Except.ok 0
  | some (JsonVal.num n) => Except.ok n
  | some _ => Except.error ("cannot unmarshal JSON value into int64 field " ++ k)

/-- Go `json.Unmarshal` of an object field into a `string` struct field:
a missing key or JSON `null` leaves the zero value `""`; a JSON string is
taken as is; any other JSON type is a type error. -/
def getStrD (fields : List (String × JsonVal)) (k : String) : Except String String :=
  match jLookup fields k with
  | none => Except.ok ""
  | some JsonVal.null => Except.ok ""
  | some (JsonVal.str s) => Except.ok s
  | some _ => Except.error ("cannot unmarshal JSON value into string field " ++ k)

/-- `GBFSAPIResponse` of the source: feed envelope metadata. -/
structure GBFSAPIResponse : Type where
  lastUpdated : Int
  ttl : Int
  deriving Repr, DecidableEq

/-- `StationStatus` of the source, after `UnmarshalJSON` has run: the three
boolean-like fields have been normalised from wire integers to `Bool`. -/
structure StationStatus : Type where
  id : String
  bikesAvailable : Int
  bikesDisabled : Int
  docksAvailable : Int
  docksDisabled : Int
  installed : Bool
  renting : Bool
  returning : Bool
  lastReported : Int
  deriving Repr, DecidableEq

/-- The two failure modes of unmarshalling station data: `schema` is an
error value returned to the caller; `nilCrash` is a runtime
nil-pointer-dereference panic that escapes the unmarshal and crashes the
program. -/
inductive DecodeFail : Type where
  | schema : String → DecodeFail
  | nilCrash : DecodeFail
  deriving Repr, DecidableEq

/-- Lift a field getter's error into `DecodeFail.schema`. -/
def liftGet {α : Type} : Except String α → Except DecodeFail α
  | Except.ok a => Except.ok a
  | Except.error e => Except.error (DecodeFail.schema e)

/-- `StationStatus.UnmarshalJSON` of the source: unmarshal the object into
the alias struct (whose `is_installed` / `is_renting` / `is_returning`
fields are `int64`, the rest inherited), then set the three booleans by
comparing the wire integers with `0`.  A JSON `null` element is a crash:
Go calls `UnmarshalJSON` even for a null element, the inner
`json.Unmarshal(data, &alias)` — whose target is the pointer-to-pointer
`&alias` — sets the pointer `alias` itself to nil with no error, and the
following `alias.Installed` dereference panics. -/
def decodeStationStatus (j : JsonVal) : Except DecodeFail StationStatus :=
  match j with
  | JsonVal.null => Except.error DecodeFail.nilCrash
  | JsonVal.obj fs =>
      Except.bind (liftGet (getStrD fs "station_id")) fun id =>
      Except.bind (liftGet (getIntD fs "num_bikes_available")) fun ba =>
      Except.bind (liftGet (getIntD fs "num_bikes_disabled")) fun bd =>
      Except.bind (liftGet (getIntD fs "num_docks_available")) fun da =>
      Except.bind (liftGet (getIntD fs "num_docks_disabled")) fun dd =>
      Except.bind (liftGet (getIntD fs "is_installed")) fun inst =>
      Except.bind (liftGet (getIntD fs "is_renting")) fun rent =>
      Except.bind (liftGet (getIntD fs "is_returning")) fun ret =>
      Except.bind (liftGet (getIntD fs "last_reported")) fun lr =>
      Except.ok ⟨id, ba, bd, da, dd,
        decide (inst ≠ 0), decide (rent ≠ 0), decide (ret ≠ 0), lr⟩
  | _ => Except.error (DecodeFail.schema "cannot unmarshal JSON value into StationStatus")

/-- Decoding a JSON array into `[]StationStatus`: elements in order, the
first element whose custom unmarshaller errors (or panics) aborts the
whole decode. -/
def decodeStationList : List JsonVal → Except DecodeFail (List StationStatus)
  | [] => Except.ok []
  | x :: xs =>
      Except.bind (decodeStationStatus x) fun s =>
      Except.bind (decodeStationList xs) fun ss =>
      Except.ok (s :: ss)

/-- The anonymous `Data struct { Stations []StationStatus }` of
`StationStatusAPIResponse`. -/
structure StationStatusData : Type where
  stations : List StationStatus
  deriving Repr, DecidableEq

/-- `StationStatusAPIResponse` of the source: `data.stations` plus the
embedded `GBFSAPIResponse` envelope. -/
structure StationStatusAPIResponse : Type where
  data : StationStatusData
  envelope : GBFSAPIResponse
  deriving Repr, DecidableEq

/-- Decoding the `data` member: missing or `null` leaves the zero value
(a struct field is left untouched by null, a slice is set to nil — both
give an empty station slice); an object is searched for `stations`,
itself defaulting to empty; any other JSON type is a type error. -/
def decodeData (v : Option JsonVal) : Except DecodeFail (List StationStatus) :=
  match v with
  | none => Except.ok []
  | some JsonVal.null => Except.ok []
  | some (JsonVal.obj ds) =>
      match jLookup ds "stations" with
      | none => Except.ok []
      | some JsonVal.null => Except.ok []
      | some (JsonVal.arr xs) => decodeStationList xs
      | some _ =>
          Except.error (DecodeFail.schema "cannot unmarshal JSON value into field data.stations")
  | some _ => Except.error (DecodeFail.schema "cannot unmarshal JSON value into field data")

/-- The observable outcome of `json.Unmarshal(body, &resp)` in
`GetStationStatuses`, where `resp := new(StationStatusAPIResponse)` makes
the unmarshal target the pointer-to-pointer `&resp`:
- `ok r`: success — the returned pointer is non-nil and points to `r`,
  the returned error is nil;
- `nilResp`: the body is the JSON literal `null` — Go's documented
  pointer-null semantics set the pointed-to pointer itself to nil with no
  error, so the caller receives `(nil, nil)`;
- `err e`: the unmarshal returns the error `e` and the returned pointer
  is still the non-nil allocation of `new` (the library may populate
  fields it decoded before the failing one; on the inputs used in the
  theorems below that value is the zero value);
- `crash`: a nil-dereference panic escaped the unmarshal (a null station
  element, see `decodeStationStatus`), crashing the program. -/
inductive UnmarshalOutcome : Type where
  | ok : StationStatusAPIResponse → UnmarshalOutcome
  | nilResp : UnmarshalOutcome
  | err : String → UnmarshalOutcome
  | crash : UnmarshalOutcome
  deriving Repr, DecidableEq

/-- Decoding a whole `StationStatusAPIResponse` from a parsed top-level
JSON value. -/
def decodeResponse (j : JsonVal) : UnmarshalOutcome :=
  match j with
  | JsonVal.null => UnmarshalOutcome.nilResp
  | JsonVal.obj fs =>
      match (Except.bind (decodeData (jLookup fs "data")) fun stations =>
             Except.bind (liftGet (getIntD fs "last_updated")) fun lu =>
             Except.bind (liftGet (getIntD fs "ttl")) fun ttl =>
             (Except.ok ⟨⟨stations⟩, ⟨lu, ttl⟩⟩ :
               Except DecodeFail StationStatusAPIResponse)) with
      | Except.ok r => UnmarshalOutcome.ok r
      | Except.error (DecodeFail.schema e) => UnmarshalOutcome.err e
      | Except.error DecodeFail.nilCrash => UnmarshalOutcome.crash
  | _ => UnmarshalOutcome.err "cannot unmarshal JSON value into StationStatusAPIResponse"

/-- A fetched HTTP body, as handed to `GetStationStatuses`: `none` stands
for bytes that are not syntactically valid JSON, `some j` for bytes that
parse to the JSON value `j`. -/
abbrev Body := Option JsonVal

/-- `GetStationStatuses` of the source: `resp := new(...)`,
`err := json.Unmarshal(body, &resp)`, `return resp, err`.  A
syntactically invalid body returns a syntax error with `resp` untouched
(non-nil zero value), hence `err`. -/
def GetStationStatuses (b : Body) : UnmarshalOutcome :=
  match b with
  | none => UnmarshalOutcome.err "invalid JSON"
  | some j => decodeResponse j

/-- The zero value of `StationStatusAPIResponse` — what this model uses
for the value an error-ignoring caller observes next to an `err` return
(exact on the inputs used in the theorems below). -/
def zeroResponse : StationStatusAPIResponse := ⟨⟨[]⟩, ⟨0, 0⟩⟩

/-- `Max` of the source (util shared by all variants): the greatest of two
`int64`s. -/
def Max (x y : Int) : Int :=
  if x > y then x else y

/-- `BoolToFloat64` of `src/unnamed/part_001`: 1 if true, else 0 (the
`float64` result is modelled as `Int`, exactly). -/
def BoolToFloat64 (x : Bool) : Int :=
  if x then 1 else 0

/-- `minimumPollSleepSeconds` of the source. -/
def minimumPollSleepSeconds : Int := 10

/-- One labelled gauge vector (`prometheus.GaugeVec` with the single label
`station_id`): a finite map from label value to gauge value.
`gaugeSet` models `gauge.With(labels).Set(v)`. -/
abbrev GaugeVec := List (String × Int)

/-- `With(prometheus.Labels{station_id: id}).Set(v)`: overwrite the child
for `id` if it exists, otherwise create it. -/
def gaugeSet (g : GaugeVec) (id : String) (v : Int) : GaugeVec :=
  if g.any (fun p => p.1 = id) then
    g.map (fun p => if p.1 = id then (id, v) else p)
  else
    g ++ [(id, v)]

/-- The label values present in a gauge vector. -/
def gaugeIds (g : GaugeVec) : List String :=
  g.map Prod.fst

/-- The three process-global gauge vectors of `src/main.go` (and of the
poll variant `src/unnamed/part_002`, which registers the same three via
promauto): `gbfs_bikes_available`, `gbfs_bikes_disabled`,
`gbfs_docks_available`.  They live for the process lifetime. -/
structure GlobalGauges : Type where
  bikesAvailable : GaugeVec
  bikesDisabled : GaugeVec
  docksAvailable : GaugeVec
  deriving Repr, DecidableEq

/-- The empty state the process-global gauge vectors start in. -/
def GlobalGauges.empty : GlobalGauges := ⟨[], [], []⟩

/-- The body of the populate loop shared by `src/main.go`'s `probeGBFS`
and `src/unnamed/part_002`'s `grabThoseMetrics`: one station writes its
three observations, keyed by `status.ID`. -/
def globalGaugeStep (g : GlobalGauges) (s : StationStatus) : GlobalGauges :=
  { bikesAvailable := gaugeSet g.bikesAvailable s.id s.bikesAvailable
    bikesDisabled := gaugeSet g.bikesDisabled s.id s.bikesDisabled
    docksAvailable := gaugeSet g.docksAvailable s.id s.docksAvailable }

/-- The full populate loop over the decoded stations. -/
def populateGlobal (g : GlobalGauges) (stations : List StationStatus) : GlobalGauges :=
  stations.foldl globalGaugeStep g

/-- A rendered sample: (metric name, station_id label, value), as the
promhttp exposition of a registry holding the gauge vectors.  Rendering a
registry collects every child of every registered gauge vector. -/
abbrev Sample := String × String × Int

/-- Rendering the registry of `src/main.go`, which holds the three global
gauge vectors (metric names are namespace `gbfs` plus the gauge name). -/
def renderGlobal (g : GlobalGauges) : List Sample :=
  g.bikesAvailable.map (fun p => ("gbfs_bikes_available", p.1, p.2)) ++
  g.bikesDisabled.map (fun p => ("gbfs_bikes_disabled", p.1, p.2)) ++
  g.docksAvailable.map (fun p => ("gbfs_docks_available", p.1, p.2))

/-- The outcome of `ioutil.ReadAll(resp.Body)`: either the read fails, or
it yields the body bytes (already abstracted to a `Body`). -/
inductive ReadOutcome : Type where
  | readErr : String → ReadOutcome
  | body : Body → ReadOutcome
  deriving Repr

/-- The outcome of `http.Get(target)`: either a network-level error, or a
response whose body can then be read. -/
inductive FetchOutcome : Type where
  | netErr : String → FetchOutcome
  | resp : ReadOutcome → FetchOutcome
  deriving Repr

/-- The response a probe handler writes: `http.Error(w, body, code)`, a
rendered metrics exposition, or `crashed` — the handler goroutine panics
on a nil dereference (nil response pointer, or inside the unmarshal), so
no response is rendered. -/
inductive ProbeResponse : Type where
  | httpError : Nat → String → ProbeResponse
  | metrics : List Sample → ProbeResponse
  | crashed : ProbeResponse
  deriving Repr, DecidableEq

/-- The station_id labels visible in a rendered probe response. -/
def renderedStationIds (r : ProbeResponse) : List String :=
  match r with
  | ProbeResponse.metrics xs => xs.map (fun s => s.2.1)
  | _ => []

/-- The rendered samples of a probe response (none for an error or a
crash). -/
def renderedSamples (r : ProbeResponse) : List Sample :=
  match r with
  | ProbeResponse.metrics xs => xs
  | _ => []

/-- `probeGBFS` of `src/main.go`.  `target` is `r.URL.Query().Get("target")`
(which is `""` when the parameter is absent or empty).  The handler
threads the process-global gauge state: it registers the three global
gauge vectors into a fresh registry, and on success populates them and
renders that registry — which exposes every child the globals have
accumulated, including ones written by earlier requests.  A nil response
pointer (null body: err is nil, so the 400 branch is skipped and the
range over `stationStatusResp.Data.Stations` dereferences nil) and a
panic escaping `GetStationStatuses` (null station element) both crash
the handler before any gauge write. -/
def probeGBFS (g : GlobalGauges) (target : String) (f : FetchOutcome) :
    GlobalGauges × ProbeResponse :=
  if target = "" then
    (g, ProbeResponse.httpError 400 "Target parameter missing")
  else
    match f with
    | FetchOutcome.netErr e =>
        (g, ProbeResponse.httpError 400 ("HTTP error: " ++ e))
    | FetchOutcome.resp (ReadOutcome.readErr e) =>
        (g, ProbeResponse.httpError 500
          ("Failed to read HTTP body of target \x27" ++ target ++ "\x27: " ++ e))
    | FetchOutcome.resp (ReadOutcome.body b) =>
        match GetStationStatuses b with
        | UnmarshalOutcome.err e =>
            (g, ProbeResponse.httpError 400
              ("Could not unmarshal target JSON, target \x27" ++ target ++
               "\x27 does not have the expected schema: " ++ e))
        | UnmarshalOutcome.nilResp => (g, ProbeResponse.crashed)
        | UnmarshalOutcome.crash => (g, ProbeResponse.crashed)
        | UnmarshalOutcome.ok resp =>
            let g2 := populateGlobal g resp.data.stations
            (g2, ProbeResponse.metrics (renderGlobal g2))

/-- The seven per-request gauge vectors of `src/unnamed/part_001`'s
`probeGBFS`, declared locally inside the handler. -/
structure ProbeGauges : Type where
  bikesAvailableGauge : GaugeVec
  bikesDisabledGauge : GaugeVec
  docksAvailableGauge : GaugeVec
  docksDisabledGauge : GaugeVec
  installedGauge : GaugeVec
  rentingGauge : GaugeVec
  lastReportedGauge : GaugeVec
  deriving Repr, DecidableEq

/-- Freshly created per-request gauges are empty. -/
def ProbeGauges.empty : ProbeGauges := ⟨[], [], [], [], [], [], []⟩

/-- The body of `src/unnamed/part_001`'s populate loop: one station writes
its seven observations.  There is no returning gauge; the decoded
`Returning` field is not exported. -/
def probeGaugeStep (g : ProbeGauges) (s : StationStatus) : ProbeGauges :=
  { bikesAvailableGauge := gaugeSet g.bikesAvailableGauge s.id s.bikesAvailable
    bikesDisabledGauge := gaugeSet g.bikesDisabledGauge s.id s.bikesDisabled
    docksAvailableGauge := gaugeSet g.docksAvailableGauge s.id s.docksAvailable
    docksDisabledGauge := gaugeSet g.docksDisabledGauge s.id s.docksDisabled
    installedGauge := gaugeSet g.installedGauge s.id (BoolToFloat64 s.installed)
    rentingGauge := gaugeSet g.rentingGauge s.id (BoolToFloat64 s.renting)
    lastReportedGauge := gaugeSet g.lastReportedGauge s.id s.lastReported }

/-- The full per-request populate loop, starting from fresh gauges. -/
def populateProbe (stations : List StationStatus) : ProbeGauges :=
  stations.foldl probeGaugeStep ProbeGauges.empty

/-- Rendering the per-request registry of `src/unnamed/part_001`, which
holds exactly the seven freshly created gauge vectors. -/
def renderProbe (g : ProbeGauges) : List Sample :=
  g.bikesAvailableGauge.map (fun p => ("gbfs_bikes_available", p.1, p.2)) ++
  g.bikesDisabledGauge.map (fun p => ("gbfs_bikes_disabled", p.1, p.2)) ++
  g.docksAvailableGauge.map (fun p => ("gbfs_docks_available", p.1, p.2)) ++
  g.docksDisabledGauge.map (fun p => ("gbfs_docks_disabled", p.1, p.2)) ++
  g.installedGauge.map (fun p => ("gbfs_installed", p.1, p.2)) ++
  g.rentingGauge.map (fun p => ("gbfs_renting", p.1, p.2)) ++
  g.lastReportedGauge.map (fun p => ("gbfs_last_reported_timestamp_seconds", p.1, p.2))

/-- `probeGBFS` of `src/unnamed/part_001` (isolated-per-probe variant):
same control flow as `src/main.go`'s, but the gauges and the registry are
created inside the handler, so the function takes no gauge state and its
response depends only on this request's own inputs. -/
def probeGBFSIsolated (target : String) (f : FetchOutcome) : ProbeResponse :=
  if target = "" then
    ProbeResponse.httpError 400 "Target parameter missing"
  else
    match f with
    | FetchOutcome.netErr e =>
        ProbeResponse.httpError 400 ("HTTP error: " ++ e)
    | FetchOutcome.resp (ReadOutcome.readErr e) =>
        ProbeResponse.httpError 500
          ("Failed to read HTTP body of target \x27" ++ target ++ "\x27: " ++ e)
    | FetchOutcome.resp (ReadOutcome.body b) =>
        match GetStationStatuses b with
        | UnmarshalOutcome.err e =>
            ProbeResponse.httpError 400
              ("Could not unmarshal target JSON, target \x27" ++ target ++
               "\x27 does not have the expected schema: " ++ e)
        | UnmarshalOutcome.nilResp => ProbeResponse.crashed
        | UnmarshalOutcome.crash => ProbeResponse.crashed
        | UnmarshalOutcome.ok resp =>
            ProbeResponse.metrics (renderProbe (populateProbe resp.data.stations))

/-- The result of one iteration of a loop that may call `log.Fatalln`:
`fatal` terminates the process via `log.Fatalln`; `nilDeref` is a
nil-pointer-dereference panic crashing the process — either the caller
dereferencing the nil response pointer a `null` body produces, or the
panic inside the unmarshal a `null` station element produces; `next`
carries the updated global gauge state and the computed sleep length in
seconds. -/
inductive PollStep : Type where
  | fatal : String → PollStep
  | nilDeref : PollStep
  | next : GlobalGauges → Int → PollStep
  deriving Repr, DecidableEq

/-- One iteration of `grabThoseMetrics` of `src/unnamed/part_002`:
`http.Get` and `ioutil.ReadAll` failures hit `log.Fatalln`; the decode
error of `GetStationStatuses` is discarded (`stationStatusResp, _ :=`)
and the returned response pointer is dereferenced to populate the shared
global gauges — a nil pointer (null body) or a panic escaping the
unmarshal (null station element) crashes — and the loop sleeps
`Max(minimumPollSleepSeconds, resp.TTL+1)` seconds. -/
def grabThoseMetricsStep (g : GlobalGauges) (f : FetchOutcome) : PollStep :=
  match f with
  | FetchOutcome.netErr e => PollStep.fatal e
  | FetchOutcome.resp (ReadOutcome.readErr e) => PollStep.fatal e
  | FetchOutcome.resp (ReadOutcome.body b) =>
      match GetStationStatuses b with
      | UnmarshalOutcome.ok resp =>
          PollStep.next (populateGlobal g resp.data.stations)
            (Max minimumPollSleepSeconds (resp.envelope.ttl + 1))
      | UnmarshalOutcome.err _ =>
          PollStep.next (populateGlobal g zeroResponse.data.stations)
            (Max minimumPollSleepSeconds (zeroResponse.envelope.ttl + 1))
      | UnmarshalOutcome.nilResp => PollStep.nilDeref
      | UnmarshalOutcome.crash => PollStep.nilDeref

/-- The result of `src/unnamed/part_000`'s fixed-URL `probeGBFS`:
fetch/read failures hit `log.Fatalln`; otherwise the decode error is
discarded, the response pointer dereferenced (crashing on the nil
pointer a null body produces, or on the panic a null station element
produces), the globals populated and rendered. -/
inductive FixedProbeResult : Type where
  | fatal : String → FixedProbeResult
  | nilDeref : FixedProbeResult
  | page : GlobalGauges → List Sample → FixedProbeResult
  deriving Repr, DecidableEq

/-- `probeGBFS` of `src/unnamed/part_000` (fixed-URL prototype). -/
def probeGBFSFixed (g : GlobalGauges) (f : FetchOutcome) : FixedProbeResult :=
  match f with
  | FetchOutcome.netErr e => FixedProbeResult.fatal e
  | FetchOutcome.resp (ReadOutcome.readErr e) => FixedProbeResult.fatal e
  | FetchOutcome.resp (ReadOutcome.body b) =>
      match GetStationStatuses b with
      | UnmarshalOutcome.ok resp =>
          let g2 := populateGlobal g resp.data.stations
          FixedProbeResult.page g2 (renderGlobal g2)
      | UnmarshalOutcome.err _ =>
          let g2 := populateGlobal g zeroResponse.data.stations
          FixedProbeResult.page g2 (renderGlobal g2)
      | UnmarshalOutcome.nilResp => FixedProbeResult.nilDeref
      | UnmarshalOutcome.crash => FixedProbeResult.nilDeref

/-- The station ids a fetch outcome's own feed decodes to (none when the
fetch failed or the body does not decode successfully). -/
def ownFeedStationIds (f : FetchOutcome) : List String :=
  match f with
  | FetchOutcome.resp (ReadOutcome.body b) =>
      match GetStationStatuses b with
      | UnmarshalOutcome.ok resp => resp.data.stations.map StationStatus.id
      | _ => []
  | _ => []

/-! Concrete payloads used by witnesses and counterexamples. -/

/-- A station entry with id "A1". -/
def stationJsonA : JsonVal :=
  JsonVal.obj [("station_id", JsonVal.str "A1"),
    ("num_bikes_available", JsonVal.num 3),
    ("num_docks_available", JsonVal.num 2),
    ("is_installed", JsonVal.num 1),
    ("is_renting", JsonVal.num 1),
    ("is_returning", JsonVal.num 1),
    ("last_reported", JsonVal.num 100)]

/-- A station entry with id "B1". -/
def stationJsonB : JsonVal :=
  JsonVal.obj [("station_id", JsonVal.str "B1"),
    ("num_bikes_available", JsonVal.num 5),
    ("num_docks_available", JsonVal.num 6),
    ("is_installed", JsonVal.num 1),
    ("is_renting", JsonVal.num 0),
    ("is_returning", JsonVal.num 1),
    ("last_reported", JsonVal.num 200)]

/-- A feed body whose only station is "A1". -/
def feedA : Body :=
  some (JsonVal.obj [("data", JsonVal.obj [("stations", JsonVal.arr [stationJsonA])]),
    ("last_updated", JsonVal.num 1000), ("ttl", JsonVal.num 20)])

/-- A feed body whose only station is "B1". -/
def feedB : Body :=
  some (JsonVal.obj [("data", JsonVal.obj [("stations", JsonVal.arr [stationJsonB])]),
    ("last_updated", JsonVal.num 2000), ("ttl", JsonVal.num 20)])

/-- The wire fields of the spec's end-to-end test station "7001"; the
optional disabled counts are absent. -/
def station7001Fields : List (String × JsonVal) :=
  [("station_id", JsonVal.str "7001"),
   ("num_bikes_available", JsonVal.num 4),
   ("num_docks_available", JsonVal.num 11),
   ("is_installed", JsonVal.num 1),
   ("is_renting", JsonVal.num 1),
   ("is_returning", JsonVal.num 0),
   ("last_reported", JsonVal.num 1600000000)]

/-- The decoded form of `station7001Fields`. -/
def station7001 : StationStatus :=
  ⟨"7001", 4, 0, 11, 0, true, true, false, 1600000000⟩

/-- The end-to-end feed of the spec's test: exactly one station "7001". -/
def feed7001 : Body :=
  some (JsonVal.obj [("data", JsonVal.obj [("stations", JsonVal.arr
    [JsonVal.obj station7001Fields])])])

/-- A body that is valid JSON but does not match the schema: its `data`
member is a string. -/
def badSchemaBody : Body :=
  some (JsonVal.obj [("data", JsonVal.str "zzz")])

/-- A feed body with no stations and ttl 5. -/
def feedTtl5 : Body :=
  some (JsonVal.obj [("ttl", JsonVal.num 5)])

/-- A feed body with no stations and ttl 30. -/
def feedTtl30 : Body :=
  some (JsonVal.obj [("ttl", JsonVal.num 30)])

/-! Helper lemmas. -/

/-- Destructuring a successful `Except.bind`. -/
theorem exceptBindOk {ε α β : Type} {x : Except ε α} {f : α → Except ε β} {b : β}
    (h : Except.bind x f = Except.ok b) :
    ∃ a, x = Except.ok a ∧ f a = Except.ok b := by
  cases x with
  | error e => simp [Except.bind] at h
  | ok a => exact ⟨a, rfl, by simpa [Except.bind] using h⟩

/-- A successful lifted getter was a successful getter. -/
theorem liftGetOk {α : Type} {x : Except String α} {a : α}
    (h : liftGet x = Except.ok a) : x = Except.ok a := by
  cases x with
  | ok b => simpa [liftGet] using h
  | error e => simp [liftGet] at h

/-- What a successful station decode says about each wire field. -/
theorem decodeStationStatus_ok_fields {fs : List (String × JsonVal)} {s : StationStatus}
    (h : decodeStationStatus (JsonVal.obj fs) = Except.ok s) :
    getStrD fs "station_id" = Except.ok s.id ∧
    getIntD fs "num_bikes_available" = Except.ok s.bikesAvailable ∧
    getIntD fs "num_bikes_disabled" = Except.ok s.bikesDisabled ∧
    getIntD fs "num_docks_available" = Except.ok s.docksAvailable ∧
    getIntD fs "num_docks_disabled" = Except.ok s.docksDisabled ∧
    (∃ i, getIntD fs "is_installed" = Except.ok i ∧ s.installed = decide (i ≠ 0)) ∧
    (∃ i, getIntD fs "is_renting" = Except.ok i ∧ s.renting = decide (i ≠ 0)) ∧
    (∃ i, getIntD fs "is_returning" = Except.ok i ∧ s.returning = decide (i ≠ 0)) ∧
    getIntD fs "last_reported" = Except.ok s.lastReported := by
  unfold decodeStationStatus at h
  obtain ⟨id, hid, h⟩ := exceptBindOk h
  obtain ⟨ba, hba, h⟩ := exceptBindOk h
  obtain ⟨bd, hbd, h⟩ := exceptBindOk h
  obtain ⟨da, hda, h⟩ := exceptBindOk h
  obtain ⟨dd, hdd, h⟩ := exceptBindOk h
  obtain ⟨inst, hinst, h⟩ := exceptBindOk h
  obtain ⟨rent, hrent, h⟩ := exceptBindOk h
  obtain ⟨ret, hret, h⟩ := exceptBindOk h
  obtain ⟨lr, hlr, h⟩ := exceptBindOk h
  injection h with h
  subst h
  exact ⟨liftGetOk hid, liftGetOk hba, liftGetOk hbd, liftGetOk hda, liftGetOk hdd,
    ⟨inst, liftGetOk hinst, rfl⟩, ⟨rent, liftGetOk hrent, rfl⟩,
    ⟨ret, liftGetOk hret, rfl⟩, liftGetOk hlr⟩

/-! Claim C1. -/

/-- Claim C1: for every station entry in a decoded payload, the three
boolean-like fields `is_installed`, `is_renting`, `is_returning` are read
as wire integers and mapped exactly by: wire value 0 decodes to `false`,
and any non-zero wire value decodes to `true`. -/
theorem boolean_fields_decode_by_nonzero (fs : List (String × JsonVal)) (s : StationStatus)
    (h : decodeStationStatus (JsonVal.obj fs) = Except.ok s) :
    (∀ n : Int, jLookup fs "is_installed" = some (JsonVal.num n) →
      s.installed = decide (n ≠ 0)) ∧
    (∀ n : Int, jLookup fs "is_renting" = some (JsonVal.num n) →
      s.renting = decide (n ≠ 0)) ∧
    (∀ n : Int, jLookup fs "is_returning" = some (JsonVal.num n) →
      s.returning = decide (n ≠ 0)) := by
  obtain ⟨-, -, -, -, -, ⟨i, hi, hsi⟩, ⟨r, hr, hsr⟩, ⟨t, ht, hst⟩, -⟩ :=
    decodeStationStatus_ok_fields h
  refine ⟨fun n hn => ?_, fun n hn => ?_, fun n hn => ?_⟩
  · rw [hsi]
    unfold getIntD at hi
    rw [hn] at hi
    injection hi with hi
    rw [hi]
  · rw [hsr]
    unfold getIntD at hr
    rw [hn] at hr
    injection hr with hr
    rw [hr]
  · rw [hst]
    unfold getIntD at ht
    rw [hn] at ht
    injection ht with ht
    rw [ht]

/-- The wire fields of a station whose booleans arrive as 2, -1 and 0. -/
def wireFields : List (String × JsonVal) :=
  [("station_id", JsonVal.str "W"),
   ("num_bikes_available", JsonVal.num 1),
   ("num_docks_available", JsonVal.num 1),
   ("is_installed", JsonVal.num 2),
   ("is_renting", JsonVal.num (-1)),
   ("is_returning", JsonVal.num 0),
   ("last_reported", JsonVal.num 7)]

/-- The decoded form of `wireFields`. -/
def wireStationDecoded : StationStatus :=
  ⟨"W", 1, 0, 1, 0, true, true, false, 7⟩

/-- Witness for C1: wire value 2 decodes to `true`, -1 to `true`, 0 to
`false`. -/
theorem boolean_fields_decode_by_nonzero_witness :
    decodeStationStatus (JsonVal.obj wireFields) = Except.ok wireStationDecoded ∧
    wireStationDecoded.installed = true ∧
    wireStationDecoded.renting = true ∧
    wireStationDecoded.returning = false := by
  refine ⟨rfl, ?_, ?_, ?_⟩
  · simpa using (boolean_fields_decode_by_nonzero wireFields wireStationDecoded rfl).1 2 rfl
  · simpa using (boolean_fields_decode_by_nonzero wireFields wireStationDecoded rfl).2.1 (-1) rfl
  · simpa using (boolean_fields_decode_by_nonzero wireFields wireStationDecoded rfl).2.2 0 rfl

/-! Claim C7. -/

/-- Appending one key at the end of an object shadows (or introduces) that
key and leaves every other lookup unchanged. -/
theorem jLookup_append (fs : List (String × JsonVal)) (k k' : String) (v : JsonVal) :
    jLookup (fs ++ [(k, v)]) k' = if k = k' then some v else jLookup fs k' := by
  unfold jLookup
  rw [List.foldl_append]
  rfl

/-- Appending an unrelated key does not change an int field decode. -/
theorem getIntD_append_ne {k k' : String} (hne : k ≠ k')
    (fs : List (String × JsonVal)) (v : JsonVal) :
    getIntD (fs ++ [(k, v)]) k' = getIntD fs k' := by
  unfold getIntD
  rw [jLookup_append, if_neg hne]

/-- Appending an unrelated key does not change a string field decode. -/
theorem getStrD_append_ne {k k' : String} (hne : k ≠ k')
    (fs : List (String × JsonVal)) (v : JsonVal) :
    getStrD (fs ++ [(k, v)]) k' = getStrD fs k' := by
  unfold getStrD
  rw [jLookup_append, if_neg hne]

/-- For a key that was absent, appending it with value 0 yields the same
int field decode (both are `Except.ok 0`). -/
theorem getIntD_append_zero {k : String} (fs : List (String × JsonVal))
    (h : jLookup fs k = none) :
    getIntD (fs ++ [(k, JsonVal.num 0)]) k = getIntD fs k := by
  unfold getIntD
  rw [jLookup_append, if_pos rfl, h]

/-- A station decode only depends on the object through its nine field
decodes. -/
theorem decodeStationStatus_congr (fs1 fs2 : List (String × JsonVal))
    (h1 : getStrD fs1 "station_id" = getStrD fs2 "station_id")
    (h2 : getIntD fs1 "num_bikes_available" = getIntD fs2 "num_bikes_available")
    (h3 : getIntD fs1 "num_bikes_disabled" = getIntD fs2 "num_bikes_disabled")
    (h4 : getIntD fs1 "num_docks_available" = getIntD fs2 "num_docks_available")
    (h5 : getIntD fs1 "num_docks_disabled" = getIntD fs2 "num_docks_disabled")
    (h6 : getIntD fs1 "is_installed" = getIntD fs2 "is_installed")
    (h7 : getIntD fs1 "is_renting" = getIntD fs2 "is_renting")
    (h8 : getIntD fs1 "is_returning" = getIntD fs2 "is_returning")
    (h9 : getIntD fs1 "last_reported" = getIntD fs2 "last_reported") :
    decodeStationStatus (JsonVal.obj fs1) = decodeStationStatus (JsonVal.obj fs2) := by
  simp only [decodeStationStatus, h1, h2, h3, h4, h5, h6, h7, h8, h9]

/-- Claim C7: for every payload in which `num_bikes_disabled` or
`num_docks_disabled` is absent, decoding succeeds exactly as it would with
the field present as 0 (so it never fails solely because of the missing
field), and the corresponding decoded field equals 0. -/
theorem missing_disabled_fields_default_zero (fs : List (String × JsonVal)) :
    (jLookup fs "num_bikes_disabled" = none →
      (∀ s : StationStatus, decodeStationStatus (JsonVal.obj fs) = Except.ok s →
        s.bikesDisabled = 0) ∧
      decodeStationStatus (JsonVal.obj (fs ++ [("num_bikes_disabled", JsonVal.num 0)])) =
        decodeStationStatus (JsonVal.obj fs)) ∧
    (jLookup fs "num_docks_disabled" = none →
      (∀ s : StationStatus, decodeStationStatus (JsonVal.obj fs) = Except.ok s →
        s.docksDisabled = 0) ∧
      decodeStationStatus (JsonVal.obj (fs ++ [("num_docks_disabled", JsonVal.num 0)])) =
        decodeStationStatus (JsonVal.obj fs)) := by
  constructor
  · intro habs
    constructor
    · intro s hdec
      obtain ⟨-, -, hbd, -, -, -, -, -, -⟩ := decodeStationStatus_ok_fields hdec
      unfold getIntD at hbd
      rw [habs] at hbd
      injection hbd with hbd
      exact hbd.symm
    · refine decodeStationStatus_congr _ _ ?_ ?_ ?_ ?_ ?_ ?_ ?_ ?_ ?_ <;>
        first
          | exact getIntD_append_zero fs habs
          | exact getStrD_append_ne (by decide) fs _
          | exact getIntD_append_ne (by decide) fs _
  · intro habs
    constructor
    · intro s hdec
      obtain ⟨-, -, -, -, hdd, -, -, -, -⟩ := decodeStationStatus_ok_fields hdec
      unfold getIntD at hdd
      rw [habs] at hdd
      injection hdd with hdd
      exact hdd.symm
    · refine decodeStationStatus_congr _ _ ?_ ?_ ?_ ?_ ?_ ?_ ?_ ?_ ?_ <;>
        first
          | exact getIntD_append_zero fs habs
          | exact getStrD_append_ne (by decide) fs _
          | exact getIntD_append_ne (by decide) fs _

/-- Witness for C7: station "7001" lacks both disabled counts, decodes
successfully, both decoded fields are 0, and appending the fields as 0
changes nothing. -/
theorem missing_disabled_fields_default_zero_witness :
    decodeStationStatus (JsonVal.obj station7001Fields) = Except.ok station7001 ∧
    station7001.bikesDisabled = 0 ∧
    station7001.docksDisabled = 0 ∧
    decodeStationStatus
        (JsonVal.obj (station7001Fields ++ [("num_bikes_disabled", JsonVal.num 0)])) =
      decodeStationStatus (JsonVal.obj station7001Fields) ∧
    decodeStationStatus
        (JsonVal.obj (station7001Fields ++ [("num_docks_disabled", JsonVal.num 0)])) =
      decodeStationStatus (JsonVal.obj station7001Fields) := by
  have h := missing_disabled_fields_default_zero station7001Fields
  exact ⟨rfl, (h.1 rfl).1 station7001 rfl, (h.2 rfl).1 station7001 rfl,
    (h.1 rfl).2, (h.2 rfl).2⟩

/-! Claim C9. -/

/-- Claim C9: for every probe request whose target query parameter is
absent or empty (Go's `Query().Get` returns `""` in both cases), the
handler responds HTTP 400 with "Target parameter missing", performs no
fetch (the response and the gauge state are the same for every fetch
outcome), and terminates the request there.  Both probe variants comply. -/
theorem missing_target_rejected :
    ∀ (g : GlobalGauges) (f : FetchOutcome),
      probeGBFS g "" f = (g, ProbeResponse.httpError 400 "Target parameter missing") ∧
      probeGBFSIsolated "" f =
        ProbeResponse.httpError 400 "Target parameter missing" := by
  intro g f
  exact ⟨rfl, rfl⟩

/-! Claim C8. -/

/-- Claim C8: the probe handler reports transport-level failures with
distinct user-facing codes — a network failure of the fetch yields HTTP
400 describing the HTTP error, a failure while reading the response body
yields HTTP 500. -/
theorem transport_errors_distinct_codes (g : GlobalGauges) (target e : String)
    (h : target ≠ "") :
    probeGBFS g target (FetchOutcome.netErr e) =
      (g, ProbeResponse.httpError 400 ("HTTP error: " ++ e)) ∧
    probeGBFS g target (FetchOutcome.resp (ReadOutcome.readErr e)) =
      (g, ProbeResponse.httpError 500
        ("Failed to read HTTP body of target \x27" ++ target ++ "\x27: " ++ e)) := by
  unfold probeGBFS
  simp [if_neg h]

/-- Witness for C8 at a concrete target and error. -/
theorem transport_errors_distinct_codes_witness :
    probeGBFS GlobalGauges.empty "http://x" (FetchOutcome.netErr "boom") =
      (GlobalGauges.empty, ProbeResponse.httpError 400 "HTTP error: boom") ∧
    probeGBFS GlobalGauges.empty "http://x" (FetchOutcome.resp (ReadOutcome.readErr "eof")) =
      (GlobalGauges.empty, ProbeResponse.httpError 500
        "Failed to read HTTP body of target \x27http://x\x27: eof") := by
  have h := transport_errors_distinct_codes GlobalGauges.empty "http://x" "boom"
    (by decide)
  have h2 := transport_errors_distinct_codes GlobalGauges.empty "http://x" "eof"
    (by decide)
  exact ⟨h.1, h2.2⟩

/-! Claim C3. -/

/-- Claim C3: when decoding the fetched body fails with a schema error,
the probe handler responds HTTP 400 with a message naming the offending
target URL and the underlying parse error, and the gauge state is left
untouched — no gauge observation is written for that request.  Both the
global-gauge variant (`src/main.go`) and the isolated variant comply. -/
theorem schema_error_is_400_and_writes_nothing (g : GlobalGauges) (target : String)
    (b : Body) (e : String) (h1 : target ≠ "")
    (h2 : GetStationStatuses b = UnmarshalOutcome.err e) :
    probeGBFS g target (FetchOutcome.resp (ReadOutcome.body b)) =
      (g, ProbeResponse.httpError 400
        ("Could not unmarshal target JSON, target \x27" ++ target ++
         "\x27 does not have the expected schema: " ++ e)) ∧
    probeGBFSIsolated target (FetchOutcome.resp (ReadOutcome.body b)) =
      ProbeResponse.httpError 400
        ("Could not unmarshal target JSON, target \x27" ++ target ++
         "\x27 does not have the expected schema: " ++ e) := by
  constructor
  · unfold probeGBFS
    rw [if_neg h1]
    simp only [h2]
  · unfold probeGBFSIsolated
    rw [if_neg h1]
    simp only [h2]

/-- Witness for C3 at a concrete target and schema-violating body. -/
theorem schema_error_is_400_and_writes_nothing_witness :
    GetStationStatuses badSchemaBody =
      UnmarshalOutcome.err "cannot unmarshal JSON value into field data" ∧
    probeGBFS GlobalGauges.empty "http://x"
        (FetchOutcome.resp (ReadOutcome.body badSchemaBody)) =
      (GlobalGauges.empty, ProbeResponse.httpError 400
        ("Could not unmarshal target JSON, target \x27http://x\x27 does not " ++
         "have the expected schema: cannot unmarshal JSON value into field data")) := by
  have h := schema_error_is_400_and_writes_nothing GlobalGauges.empty "http://x"
    badSchemaBody "cannot unmarshal JSON value into field data" (by decide) rfl
  refine ⟨rfl, ?_⟩
  rw [h.1]
  rfl

/-! Claim C5. -/

/-- Claim C5: in poll mode, for every fetched feed envelope the computed
sleep duration equals `max(minimumPollSleepSeconds, ttl + 1)` with
`minimumPollSleepSeconds = 10`. -/
theorem poll_sleep_is_max_floor_ttl (g : GlobalGauges) (b : Body)
    (resp : StationStatusAPIResponse) (h : GetStationStatuses b = UnmarshalOutcome.ok resp) :
    grabThoseMetricsStep g (FetchOutcome.resp (ReadOutcome.body b)) =
      PollStep.next (populateGlobal g resp.data.stations)
        (Max minimumPollSleepSeconds (resp.envelope.ttl + 1)) ∧
    Max minimumPollSleepSeconds (resp.envelope.ttl + 1) =
      max 10 (resp.envelope.ttl + 1) := by
  constructor
  · unfold grabThoseMetricsStep
    simp only [h]
  · unfold Max minimumPollSleepSeconds
    rw [max_def]
    split_ifs <;> omega

/-- Witness for C5: ttl 5 sleeps 10 seconds, ttl 30 sleeps 31 seconds. -/
theorem poll_sleep_is_max_floor_ttl_witness :
    grabThoseMetricsStep GlobalGauges.empty (FetchOutcome.resp (ReadOutcome.body feedTtl5)) =
      PollStep.next GlobalGauges.empty 10 ∧
    grabThoseMetricsStep GlobalGauges.empty (FetchOutcome.resp (ReadOutcome.body feedTtl30)) =
      PollStep.next GlobalGauges.empty 31 := by
  have h5 := poll_sleep_is_max_floor_ttl GlobalGauges.empty feedTtl5 ⟨⟨[]⟩, ⟨0, 5⟩⟩ rfl
  have h30 := poll_sleep_is_max_floor_ttl GlobalGauges.empty feedTtl30 ⟨⟨[]⟩, ⟨0, 30⟩⟩ rfl
  constructor
  · rw [h5.1]
    rfl
  · rw [h30.1]
    rfl

/-! Claim C2. -/

/-- A `Set` on a gauge vector introduces no label other than the one
written. -/
theorem gaugeSet_ids {gv : GaugeVec} {i x : String} {v : Int}
    (h : x ∈ gaugeIds (gaugeSet gv i v)) : x ∈ gaugeIds gv ∨ x = i := by
  unfold gaugeSet gaugeIds at h
  split at h
  · rw [List.map_map] at h
    obtain ⟨p, hp, hx⟩ := List.mem_map.mp h
    by_cases hpi : p.1 = i
    · right
      simp only [Function.comp, hpi, if_pos] at hx
      exact hx.symm
    · left
      exact List.mem_map.mpr ⟨p, hp, by simpa [hpi] using hx⟩
  · rw [List.map_append] at h
    rcases List.mem_append.mp h with h1 | h2
    · exact Or.inl h1
    · right
      simpa using h2

/-- Folding station writes over any gauge-carrying state only ever adds
labels that are ids of the folded stations. -/
theorem foldl_gaugeIds_subset {γ : Type} (step : γ → StationStatus → γ)
    (proj : γ → GaugeVec)
    (hstep : ∀ g s x, x ∈ gaugeIds (proj (step g s)) →
      x ∈ gaugeIds (proj g) ∨ x = s.id) :
    ∀ (sts : List StationStatus) (g : γ) (x : String),
      x ∈ gaugeIds (proj (sts.foldl step g)) →
        x ∈ gaugeIds (proj g) ∨ x ∈ sts.map StationStatus.id := by
  intro sts
  induction sts with
  | nil =>
      intro g x h
      exact Or.inl h
  | cons s rest ih =>
      intro g x h
      rcases ih (step g s) x h with h1 | h2
      · rcases hstep g s x h1 with h3 | h4
        · exact Or.inl h3
        · exact Or.inr (by simp [h4])
      · exact Or.inr (List.mem_cons_of_mem _ h2)

/-- Membership in the rendered samples of the isolated registry comes
from one of its seven gauge vectors. -/
theorem renderProbe_ids (G : ProbeGauges) (x : String)
    (h : x ∈ (renderProbe G).map (fun s => s.2.1)) :
    x ∈ gaugeIds G.bikesAvailableGauge ∨ x ∈ gaugeIds G.bikesDisabledGauge ∨
    x ∈ gaugeIds G.docksAvailableGauge ∨ x ∈ gaugeIds G.docksDisabledGauge ∨
    x ∈ gaugeIds G.installedGauge ∨ x ∈ gaugeIds G.rentingGauge ∨
    x ∈ gaugeIds G.lastReportedGauge := by
  unfold renderProbe at h
  unfold gaugeIds
  simpa [List.mem_append, List.mem_map] using h

/-- Claim C2 (amended): in the isolated-per-probe variant
(`src/unnamed/part_001`), every station id visible in a rendered probe
response is an id of that request's own decoded feed.  The handler takes
no cross-request state at all, so one request's feed cannot surface in
another's output. -/
theorem isolated_probe_reflects_own_feed (target : String) (f : FetchOutcome)
    (x : String) (h : x ∈ renderedStationIds (probeGBFSIsolated target f)) :
    x ∈ ownFeedStationIds f := by
  by_cases ht : target = ""
  · simp [probeGBFSIsolated, ht, renderedStationIds] at h
  · cases f with
    | netErr e => simp [probeGBFSIsolated, if_neg ht, renderedStationIds] at h
    | resp ro =>
        cases ro with
        | readErr e => simp [probeGBFSIsolated, if_neg ht, renderedStationIds] at h
        | body b =>
            unfold probeGBFSIsolated at h
            rw [if_neg ht] at h
            cases hdec : GetStationStatuses b with
            | err e =>
                simp only [hdec, renderedStationIds] at h
                simp at h
            | nilResp =>
                simp only [hdec] at h
                simp [renderedStationIds] at h
            | crash =>
                simp only [hdec] at h
                simp [renderedStationIds] at h
            | ok resp =>
                simp only [hdec, renderedStationIds] at h
                simp only [ownFeedStationIds, hdec]
                have h7 := renderProbe_ids (populateProbe resp.data.stations) x h
                have field : ∀ proj : ProbeGauges → GaugeVec,
                    (∀ g s y, y ∈ gaugeIds (proj (probeGaugeStep g s)) →
                      y ∈ gaugeIds (proj g) ∨ y = s.id) →
                    proj ProbeGauges.empty = [] →
                    x ∈ gaugeIds (proj (populateProbe resp.data.stations)) →
                    x ∈ resp.data.stations.map StationStatus.id := by
                  intro proj hstep hempty hx
                  have := foldl_gaugeIds_subset probeGaugeStep proj hstep
                    resp.data.stations ProbeGauges.empty x hx
                  refine this.resolve_left ?_
                  simp [hempty, gaugeIds]
                rcases h7 with h' | h' | h' | h' | h' | h' | h'
                · exact field (fun g => g.bikesAvailableGauge)
                    (fun g s y hy => gaugeSet_ids hy) rfl h'
                · exact field (fun g => g.bikesDisabledGauge)
                    (fun g s y hy => gaugeSet_ids hy) rfl h'
                · exact field (fun g => g.docksAvailableGauge)
                    (fun g s y hy => gaugeSet_ids hy) rfl h'
                · exact field (fun g => g.docksDisabledGauge)
                    (fun g s y hy => gaugeSet_ids hy) rfl h'
                · exact field (fun g => g.installedGauge)
                    (fun g s y hy => gaugeSet_ids hy) rfl h'
                · exact field (fun g => g.rentingGauge)
                    (fun g s y hy => gaugeSet_ids hy) rfl h'
                · exact field (fun g => g.lastReportedGauge)
                    (fun g s y hy => gaugeSet_ids hy) rfl h'

/-- Witness for the amended C2: station "B1" rendered by a probe of feed
B is a station of feed B itself. -/
theorem isolated_probe_reflects_own_feed_witness :
    "B1" ∈ ownFeedStationIds (FetchOutcome.resp (ReadOutcome.body feedB)) :=
  isolated_probe_reflects_own_feed "http://b"
    (FetchOutcome.resp (ReadOutcome.body feedB)) "B1" (by decide)

/-- Counterexample to C2 as stated: with `src/main.go`'s `probeGBFS`,
whose gauge vectors are process globals, probing feed A (station "A1")
and then feed B (station "B1") renders "A1" in B's response, although
"A1" is not a station of B's own feed. -/
theorem cross_request_station_leak :
    "A1" ∈ renderedStationIds
      (probeGBFS
        (probeGBFS GlobalGauges.empty "http://a"
          (FetchOutcome.resp (ReadOutcome.body feedA))).1
        "http://b" (FetchOutcome.resp (ReadOutcome.body feedB))).2 ∧
    "A1" ∉ ownFeedStationIds (FetchOutcome.resp (ReadOutcome.body feedB)) := by
  decide

/-! Claim C4. -/

/-- Counterexample to C4 as stated: probing the end-to-end feed with the
single station "7001" renders exactly these seven samples, and no
rendered metric name mentions "returning" — the seven registered gauges
of `src/unnamed/part_001` include no returning gauge, so no
returning-gauge sample (with value 0 or any other) exists in the output. -/
theorem end_to_end_7001_has_no_returning_sample :
    renderedSamples (probeGBFSIsolated "http://feed"
        (FetchOutcome.resp (ReadOutcome.body feed7001))) =
      [("gbfs_bikes_available", "7001", 4),
       ("gbfs_bikes_disabled", "7001", 0),
       ("gbfs_docks_available", "7001", 11),
       ("gbfs_docks_disabled", "7001", 0),
       ("gbfs_installed", "7001", 1),
       ("gbfs_renting", "7001", 1),
       ("gbfs_last_reported_timestamp_seconds", "7001", 1600000000)] ∧
    (List.map (fun s => s.1) (renderedSamples (probeGBFSIsolated "http://feed"
        (FetchOutcome.resp (ReadOutcome.body feed7001))))).all
      (fun n => !(decide (List.IsInfix ("returning".toList) n.toList))) = true := by
  exact ⟨rfl, by decide⟩

/-- Claim C4 (amended): for the end-to-end feed with the single station
"7001", the rendered output contains a bikes-available gauge sample
labelled station_id "7001" with value 4 and a renting-gauge sample with
value 1 (plus installed, the two disabled counts and last-reported); the
decoded returning field is not exported — no rendered gauge concerns
returning, so the claimed returning-gauge sample with value 0 does not
exist. -/
theorem end_to_end_7001_samples :
    ("gbfs_bikes_available", "7001", (4 : Int)) ∈
      renderedSamples (probeGBFSIsolated "http://feed"
        (FetchOutcome.resp (ReadOutcome.body feed7001))) ∧
    ("gbfs_renting", "7001", (1 : Int)) ∈
      renderedSamples (probeGBFSIsolated "http://feed"
        (FetchOutcome.resp (ReadOutcome.body feed7001))) ∧
    ("gbfs_installed", "7001", (1 : Int)) ∈
      renderedSamples (probeGBFSIsolated "http://feed"
        (FetchOutcome.resp (ReadOutcome.body feed7001))) ∧
    (renderedSamples (probeGBFSIsolated "http://feed"
        (FetchOutcome.resp (ReadOutcome.body feed7001)))).all
      (fun s => !(decide (List.IsInfix ("returning".toList) s.1.toList))) = true := by
  refine ⟨?_, ?_, ?_, ?_⟩ <;> decide

/-! Claim C6. -/

/-- Counterexample to C6: in poll mode a decode failure is not fatal.
For a body that is valid JSON but violates the schema,
`GetStationStatuses` returns an error, yet the loop iteration discards it
and continues to the next sleep instead of terminating the process. -/
theorem decode_failure_not_fatal_in_poll :
    (∃ e, GetStationStatuses badSchemaBody = UnmarshalOutcome.err e) ∧
    grabThoseMetricsStep GlobalGauges.empty
        (FetchOutcome.resp (ReadOutcome.body badSchemaBody)) =
      PollStep.next GlobalGauges.empty 10 := by
  exact ⟨⟨"cannot unmarshal JSON value into field data", rfl⟩, rfl⟩

/-- Claim C6 (amended): in poll mode every fetch failure and every
body-read failure is fatal to the process (`log.Fatalln`); a decode
failure is not — its error is discarded (`stationStatusResp, _ :=`) and
the iteration populates from the returned response value and proceeds to
the next sleep. -/
theorem poll_fatal_on_fetch_and_read_only :
    (∀ (g : GlobalGauges) (e : String),
      grabThoseMetricsStep g (FetchOutcome.netErr e) = PollStep.fatal e ∧
      grabThoseMetricsStep g (FetchOutcome.resp (ReadOutcome.readErr e)) =
        PollStep.fatal e) ∧
    (∀ (g : GlobalGauges) (b : Body) (e : String),
      grabThoseMetricsStep g (FetchOutcome.resp (ReadOutcome.body b)) ≠
        PollStep.fatal e) := by
  refine ⟨fun g e => ⟨rfl, rfl⟩, fun g b e => ?_⟩
  unfold grabThoseMetricsStep
  cases hh : GetStationStatuses b <;> simp [hh]

/-! Claim C10. -/

/-- Counterexample to C10: the non-nil guarantee does not hold for every
input byte sequence.  `GetStationStatuses` unmarshals into `&resp`, a
pointer to pointer, so the body consisting of the JSON literal `null`
sets `resp` itself to nil with a nil error; the poll loop and the
fixed-URL probe variant, which ignore the error and dereference the
result, then hit a nil dereference and crash. -/
theorem null_body_nil_dereference :
    GetStationStatuses (some JsonVal.null) = UnmarshalOutcome.nilResp ∧
    grabThoseMetricsStep GlobalGauges.empty
        (FetchOutcome.resp (ReadOutcome.body (some JsonVal.null))) =
      PollStep.nilDeref ∧
    probeGBFSFixed GlobalGauges.empty
        (FetchOutcome.resp (ReadOutcome.body (some JsonVal.null))) =
      FixedProbeResult.nilDeref := by
  exact ⟨rfl, rfl, rfl⟩

/-- Claim C10 (amended): whenever `GetStationStatuses` returns a decode
error, it also returns a non-nil response pointer (`resp := new(...)`,
which a returned error leaves allocated), so on every body whose decode
errors the error-ignoring callers — the poll loop and the fixed-URL probe
variant — dereference a valid pointer and hit no nil dereference.  The
guarantee is not input-independent: a body of JSON `null` nils the
pointer with a nil error and both callers crash (see the
counterexample). -/
theorem error_return_never_nil_deref (b : Body) (e : String)
    (h : GetStationStatuses b = UnmarshalOutcome.err e) :
    (∀ g : GlobalGauges,
      grabThoseMetricsStep g (FetchOutcome.resp (ReadOutcome.body b)) ≠
        PollStep.nilDeref) ∧
    (∀ g : GlobalGauges,
      probeGBFSFixed g (FetchOutcome.resp (ReadOutcome.body b)) ≠
        FixedProbeResult.nilDeref) := by
  refine ⟨fun g => ?_, fun g => ?_⟩
  · unfold grabThoseMetricsStep
    simp [h]
  · unfold probeGBFSFixed
    simp [h]

/-- Witness for the amended C10: a schema-violating body makes
`GetStationStatuses` return an error, and neither caller reaches a nil
dereference on it. -/
theorem error_return_never_nil_deref_witness :
    grabThoseMetricsStep GlobalGauges.empty
        (FetchOutcome.resp (ReadOutcome.body badSchemaBody)) ≠
      PollStep.nilDeref ∧
    probeGBFSFixed GlobalGauges.empty
        (FetchOutcome.resp (ReadOutcome.body badSchemaBody)) ≠
      FixedProbeResult.nilDeref := by
  have h := error_return_never_nil_deref badSchemaBody
    "cannot unmarshal JSON value into field data" rfl
  exact ⟨h.1 GlobalGauges.empty, h.2 GlobalGauges.empty⟩

end Gbfs
